import Mathlib

/-!
Verification of the miszen repository's protocol / adapter / event-dispatch
core against its natural-language specification.

The Python sources embedded here (shallowly) are:
  src/core/mcp_protocol.py    (MCPMessage, MCPConnection, MCPClient)
  src/core/config.py          (Config.get_zen_command_timeout,
                               get_event_commands, get_event_conditions,
                               the default event mappings and timeouts)
  src/adapters/zen_mcp_adapter.py (ZenCommandResult, ZenMCPAdapter)
  src/events/event_types.py   (MISEvent.matches_conditions)
  src/events/event_handler.py (EventHandler.handle_event, _process_events,
                               _process_single_event)

Modelling conventions:
* Python dicts are modelled as association lists (List (String × _)) with
  first-match lookup; keys are unique in every state we construct, and a
  new key is appended at the end (CPython dicts preserve insertion order).
* Dynamically typed Python values are modelled by the inductive PyVal.
  For the claims about matches_conditions itself the evaluation is
  totalized (documented at each site) and every theorem about such a
  site carries a well-typedness hypothesis, so the totalization is never
  what is being proved; the dispatcher instead evaluates conditions with
  the exception-aware condHoldsE / matchesConditionsE, whose
  Except.error carries str(e) of the TypeError / AttributeError Python
  raises, so the outer except of _process_single_event is faithfully
  representable.
* asyncio is modelled by making each suspension's outcome an explicit
  parameter (RemoteOutcome, WaitOutcome, ConnectPhase): the functions
  below compute what the Python code does once that outcome is fixed.
* Wall-clock durations (floats in Python) are modelled as rationals.
-/

/-- Model of a dynamically-typed Python value as stored in event `data`
dictionaries, command parameters and protocol results.  The constructors
cover exactly the value shapes the repository stores in those places:
strings, integers, lists of strings (extension lists, severity lists,
relevant-files lists) and None. -/
inductive PyVal where
  | str (s : String)
  | int (n : Int)
  | strList (xs : List String)
  | none
deriving DecidableEq, Repr

/-- First-match lookup in an association list: the model of Python
`d[key]` / `key in d` / `d.get(key)` for a dict `d`. -/
def alookup {β : Type} : List (String × β) → String → Option β
  | [], _ => Option.none
  | (k, v) :: rest, key => if k = key then some v else alookup rest key

/-- Model of Python `str.endswith(suffix)` as a suffix test on the
character list (Lean's own String.endsWith computes the same Bool but
does not reduce inside the kernel, so concrete instances could not be
settled with it). -/
def pyEndsWith (s suffix : String) : Bool :=
  suffix.data.isSuffixOf s.data

/-- Model of Python `d.get(key, default)` where the expected value is a
string; a present non-string value is totalized to the default (Python
would raise a TypeError at the use sites, which never happens on the
repository's well-typed data; theorems add the typing hypothesis). -/
def getStrD (data : List (String × PyVal)) (key : String) (d : String) : String :=
  match alookup data key with
  | some (PyVal.str s) => s
  | _ => d

/-- Event model from src/events/event_types.py (class MISEvent).
EventMetadata and the auto-generated uuid for a missing event_id are not
needed by any claim: metadata is only consulted by parameter synthesis,
which is kept parametric in the dispatcher model, and every event we
construct carries an explicit id. -/
structure MISEvent where
  event_id : String
  event_type : String
  data : List (String × PyVal)
deriving DecidableEq, Repr

/-- Check of a single condition entry, the loop body of
MISEvent.matches_conditions (src/events/event_types.py lines 100-118).
The three special keys are handled first; any other key is an equality
check applied only when the key exists in the event data.  Ill-typed
condition values (a non-list for extensions/severity, a non-int for
min_lines) are totalized to a non-match; Python would raise there. -/
def condHolds (data : List (String × PyVal)) (cond : String × PyVal) : Bool :=
  let key := cond.1
  let expected := cond.2
  if key = "extensions" then
    -- file_path = self.data.get('file_path', '')
    -- any(file_path.endswith(ext) for ext in expected_value)
    let file_path := getStrD data "file_path" ""
    match expected with
    | PyVal.strList xs => xs.any fun ext => pyEndsWith file_path ext
    | _ => false
  else if key = "severity" then
    -- self.data.get('severity') not in expected_value  (get defaults to None)
    let got := (alookup data "severity").getD PyVal.none
    match expected with
    | PyVal.strList xs => xs.any fun x => decide (PyVal.str x = got)
    | _ => false
  else if key = "min_lines" then
    -- lines_changed = self.data.get('lines_changed', 0)
    -- lines_changed < expected_value  rejects
    match (alookup data "lines_changed").getD (PyVal.int 0), expected with
    | PyVal.int lc, PyVal.int n => decide (n ≤ lc)
    | _, _ => false
  else
    match alookup data key with
    | some w => decide (w = expected)
    | Option.none => true

/-- Model of MISEvent.matches_conditions: the early-return loop over the
conditions dict is logically the conjunction of the per-key checks. -/
def MISEvent.matchesConditions (e : MISEvent) (conditions : List (String × PyVal)) : Bool :=
  conditions.all (condHolds e.data)

/-- Python type name of a modelled value, as it appears in TypeError /
AttributeError messages. -/
def pyTypeName : PyVal → String
  | PyVal.str _ => "str"
  | PyVal.int _ => "int"
  | PyVal.strList _ => "list"
  | PyVal.none => "NoneType"

/-- Lexicographic comparison of character lists, the order Python uses
for str < str (both compare by code point). -/
def pyCharListLt : List Char → List Char → Bool
  | [], [] => false
  | [], _ :: _ => true
  | _ :: _, [] => false
  | a :: as, b :: bs =>
      if a < b then true else if b < a then false else pyCharListLt as bs

/-- Python `a < b` on two strings. -/
def pyStrLt (a b : String) : Bool :=
  pyCharListLt a.data b.data

/-- Python `a < b` on two lists of strings (elementwise lexicographic). -/
def pyStrListLt : List String → List String → Bool
  | [], [] => false
  | [], _ :: _ => true
  | _ :: _, [] => false
  | a :: as, b :: bs =>
      if pyStrLt a b then true else if pyStrLt b a then false else pyStrListLt as bs

/-- Prefix test on character lists (elementwise equality). -/
def pyCharsPrefix : List Char → List Char → Bool
  | [], _ => true
  | _ :: _, [] => false
  | a :: as, b :: bs => a = b && pyCharsPrefix as bs

/-- Occurrence of `needle` as a contiguous substring of `hay`, the test
behind Python's `needle in haystack` for two strings. -/
def pyCharsInfix : List Char → List Char → Bool
  | needle, [] => pyCharsPrefix needle []
  | needle, b :: bs => pyCharsPrefix needle (b :: bs) || pyCharsInfix needle bs

/-- Message of the TypeError Python raises for an unsupported `<`
between the two operands (str(e) of e.g. 'five' < 10). -/
def cmpError (a b : PyVal) : String :=
  "'<' not supported between instances of '" ++ pyTypeName a ++ "' and '"
    ++ pyTypeName b ++ "'"

/-- Exception-aware model of one condition check: Except.error carries
str(e) of the exception Python raises on that input, Except.ok the Bool
the loop body computes.  Branch by branch (event_types.py lines 100-118):
* extensions: `any(file_path.endswith(ext) for ext in expected_value)` —
  a non-iterable expected value raises TypeError before anything else;
  an empty iterable makes any() False without touching file_path; a
  string iterates its characters; a non-str file_path raises
  AttributeError at the first element;
* severity: `data.get('severity') not in expected_value` — membership in
  a list compares with == (never raises); membership in a string is a
  substring test requiring a str operand; other containers raise;
* min_lines: `data.get('lines_changed', 0) < expected_value` — int/int,
  str/str and list/list compare (the latter two lexicographically),
  every mixed pair raises TypeError;
* any other key: == against the same-named data entry, never raises. -/
def condHoldsE (data : List (String × PyVal)) (cond : String × PyVal) :
    Except String Bool :=
  let key := cond.1
  let expected := cond.2
  if key = "extensions" then
    let file_path_v := (alookup data "file_path").getD (PyVal.str "")
    match expected with
    | PyVal.strList [] => Except.ok false
    | PyVal.strList xs =>
        match file_path_v with
        | PyVal.str fp => Except.ok (xs.any fun ext => pyEndsWith fp ext)
        | v => Except.error
            ("'" ++ pyTypeName v ++ "' object has no attribute 'endswith'")
    | PyVal.str s =>
        match s.data with
        | [] => Except.ok false
        | _ :: _ =>
            match file_path_v with
            | PyVal.str fp =>
                Except.ok (s.data.any fun ch => pyEndsWith fp (String.singleton ch))
            | v => Except.error
                ("'" ++ pyTypeName v ++ "' object has no attribute 'endswith'")
    | v => Except.error ("'" ++ pyTypeName v ++ "' object is not iterable")
  else if key = "severity" then
    let got := (alookup data "severity").getD PyVal.none
    match expected with
    | PyVal.strList xs => Except.ok (xs.any fun x => decide (PyVal.str x = got))
    | PyVal.str sub =>
        match got with
        | PyVal.str s => Except.ok (pyCharsInfix s.data sub.data)
        | v => Except.error
            ("'in <string>' requires string as left operand, not " ++ pyTypeName v)
    | v => Except.error ("argument of type '" ++ pyTypeName v ++ "' is not iterable")
  else if key = "min_lines" then
    match (alookup data "lines_changed").getD (PyVal.int 0), expected with
    | PyVal.int lc, PyVal.int n => Except.ok (decide (n ≤ lc))
    | PyVal.str a, PyVal.str b => Except.ok (!pyStrLt a b)
    | PyVal.strList a, PyVal.strList b => Except.ok (!pyStrListLt a b)
    | g, ex => Except.error (cmpError g ex)
  else
    match alookup data key with
    | some w => Except.ok (decide (w = expected))
    | Option.none => Except.ok true

/-- Exception-aware model of the matches_conditions loop: conditions are
checked in dict order, the first False stops with False, the first
exception propagates, and an empty dict is True.  (The total
MISEvent.matchesConditions above is kept for the claims about
matches_conditions itself, whose theorems exclude the raising inputs by
well-typedness hypotheses; this one feeds the dispatcher, where the
exception is observable as a failed EventProcessingResult.) -/
def matchesConditionsE (e : MISEvent) : List (String × PyVal) → Except String Bool
  | [] => Except.ok true
  | c :: rest =>
      match condHoldsE e.data c with
      | Except.error msg => Except.error msg
      | Except.ok false => Except.ok false
      | Except.ok true => matchesConditionsE e rest

/-! ## Protocol layer: src/core/mcp_protocol.py -/

/-- Error object carried by an MCP error response and by a raised
MCPError (class MCPError: code, message, data). -/
structure MCPErrorObj where
  code : Int
  message : String
  data : Option PyVal := Option.none
deriving DecidableEq, Repr

/-- Wire message (dataclass MCPMessage).  Optional fields are Options;
`error` is a structured object (the Python dict with code/message/data). -/
structure MCPMessage where
  jsonrpc : String := "2.0"
  id : Option String := Option.none
  method : Option String := Option.none
  params : Option (List (String × PyVal)) := Option.none
  result : Option PyVal := Option.none
  error : Option MCPErrorObj := Option.none
deriving DecidableEq, Repr

/-- Python truthiness of an optional string, as used by
`if message.id and ...` and `elif message.method:` in _handle_message:
None and the empty string are falsy. -/
def strTruthy : Option String → Bool
  | some s => s ≠ ""
  | Option.none => false

/-- What MCPConnection._handle_message did with one inbound frame. -/
inductive HandleAction where
  | resolvedOk (id : String) (value : PyVal)
  | resolvedErr (id : String) (code : Int) (message : String)
  | notified (method : String) (handlerCount : Nat)
  | dropped
deriving DecidableEq, Repr

/-- Model of MCPConnection._handle_message (src/core/mcp_protocol.py
lines 174-197).  The pending-request map is modelled by the list of
pending correlation ids (the attached futures matter only through which
one is resolved, reported in the HandleAction); the notification-handler
registry is modelled by how many handlers are registered per method,
since the claims only concern whether handlers are invoked at all.
Returns the new pending list and what happened. -/
def handleMessage (pending : List String) (handlers : List (String × Nat))
    (m : MCPMessage) : List String × HandleAction :=
  if strTruthy m.id ∧ pending.contains (m.id.getD "") then
    -- a response to one of our requests: pop the future and resolve it
    let id := m.id.getD ""
    match m.error with
    | some e => (pending.erase id, HandleAction.resolvedErr id e.code e.message)
    | Option.none => (pending.erase id, HandleAction.resolvedOk id ((m.result).getD PyVal.none))
  else if strTruthy m.method then
    -- a notification: invoke every registered handler for the method
    let method := m.method.getD ""
    (pending, HandleAction.notified method ((alookup handlers method).getD 0))
  else
    (pending, HandleAction.dropped)

/-- Model of registering a pending request in send_request
(`self.pending_requests[request.id] = future`); request ids are fresh
uuid4 strings, so the key is new and lands at the end of the dict. -/
def registerPending (pending : List String) (reqId : String) : List String :=
  pending ++ [reqId]

/-- Model of the timeout path of MCPConnection.send_request
(lines 118-120): `self.pending_requests.pop(request.id, None)` followed
by `raise MCPError(-32000, f"Request timeout for method: {method}")`.
Returns the pending map after the pop and the raised error. -/
def sendRequestTimeout (pending : List String) (reqId method : String) :
    List String × MCPErrorObj :=
  (pending.erase reqId,
   { code := -32000, message := "Request timeout for method: " ++ method })

/-! ## Command adapter: src/adapters/zen_mcp_adapter.py -/

/-- Result dataclass ZenCommandResult.  The datetime timestamp field is
omitted (it is set to the wall-clock creation time and never consulted
by any claim); execution_time is a rational standing for the float. -/
structure ZenCommandResult where
  command : String
  success : Bool
  result : PyVal
  error : Option String := Option.none
  execution_time : ℚ := 0
deriving DecidableEq, Repr

/-- Outcome of the remote interaction awaited inside
MCPConnection.send_request, made explicit: the matching response arrives
with a result, the wait times out, an MCPError is raised (error response,
connection closed, ...), or some other exception is raised. -/
inductive RemoteOutcome where
  | ok (v : PyVal)
  | timeout
  | mcpError (code : Int) (message : String)
  | exn (message : String)
deriving DecidableEq, Repr

/-- Exception, if any, escaping MCPConnection.send_request as seen by
execute_command's handlers: asyncio.TimeoutError, MCPError, or any
other exception. -/
inductive ExecErr where
  | timeoutError
  | mcp (code : Int) (message : String)
  | exn (message : String)
deriving DecidableEq, Repr

/-- Exception translation done by MCPConnection.send_request
(lines 114-123): a timed-out wait is converted into
MCPError(-32000, "Request timeout for method: ...") — so an
asyncio.TimeoutError never escapes send_request itself — and every
other exception is re-raised unchanged. -/
def sendRequestResult (method : String) (outcome : RemoteOutcome) :
    Except ExecErr PyVal :=
  match outcome with
  | RemoteOutcome.ok v => Except.ok v
  | RemoteOutcome.timeout =>
      Except.error (ExecErr.mcp (-32000) ("Request timeout for method: " ++ method))
  | RemoteOutcome.mcpError c msg => Except.error (ExecErr.mcp c msg)
  | RemoteOutcome.exn msg => Except.error (ExecErr.exn msg)

/-- Model of Config.get_zen_command_timeout (src/core/config.py
lines 114-116): `self.zen_mcp.command_timeout.get(command, 60.0)`. -/
def getZenCommandTimeout (command_timeout : List (String × ℚ)) (command : String) : ℚ :=
  (alookup command_timeout command).getD 60

/-- Default per-command timeouts from ZenMCPConfig.__post_init__
(src/core/config.py lines 34-51). -/
def defaultCommandTimeouts : List (String × ℚ) :=
  [("chat", 60), ("thinkdeep", 300), ("challenge", 120), ("planner", 180),
   ("consensus", 240), ("codereview", 180), ("precommit", 120), ("debug", 180),
   ("analyze", 150), ("refactor", 180), ("tracer", 120), ("testgen", 180),
   ("secaudit", 240), ("docgen", 150), ("listmodels", 30), ("version", 10)]

/-- Model of ZenMCPAdapter._get_default_model (lines 156-166). -/
def getDefaultModel (command : String) : String :=
  if command = "thinkdeep" ∨ command = "secaudit" ∨ command = "consensus" then
    "gemini-2.5-pro"
  else if command = "chat" ∨ command = "listmodels" ∨ command = "version" then
    "gemini-2.5-flash"
  else
    "o3-mini"

/-- Decidable equality for Except, so that concrete adapter traces can
be settled by decide. -/
def exceptDecEq {α β : Type} [DecidableEq α] [DecidableEq β] :
    (x y : Except α β) → Decidable (x = y)
  | Except.ok a, Except.ok b =>
      if h : a = b then Decidable.isTrue (by rw [h])
      else Decidable.isFalse (by simp [h])
  | Except.error a, Except.error b =>
      if h : a = b then Decidable.isTrue (by rw [h])
      else Decidable.isFalse (by simp [h])
  | Except.ok _, Except.error _ => Decidable.isFalse (by simp)
  | Except.error _, Except.ok _ => Decidable.isFalse (by simp)

instance {α β : Type} [DecidableEq α] [DecidableEq β] :
    DecidableEq (Except α β) := exceptDecEq

/-- Observable effects of one call to ZenMCPAdapter.execute_command:
what the call returns (or, as Except.error, the exception it raises),
the command history afterwards, the caller's params dict afterwards
(execute_command mutates the very dict object it was given), and
whether connection.send_request was invoked at all. -/
structure ExecTrace where
  ret : Except String ZenCommandResult
  history : List ZenCommandResult
  params : List (String × PyVal)
  sentRequest : Bool
deriving DecidableEq, Repr

/-- Model of ZenMCPAdapter.execute_command (src/adapters/zen_mcp_adapter.py
lines 69-154).  The adapter state is (connected, history); the remote
interaction's outcome and the measured elapsed time are explicit
parameters.  When not connected the method raises
RuntimeError("Not connected to zen-MCP server") before doing anything
else.  Otherwise it looks up the command timeout, injects the default
model into the params dict when absent, calls send_request, and turns
every outcome — success, asyncio.TimeoutError, MCPError, or any other
exception — into exactly one ZenCommandResult appended to history.
(The except asyncio.TimeoutError branch is kept even though
send_request already converts its own timeout into an MCPError.) -/
def executeCommand (connected : Bool) (history : List ZenCommandResult)
    (command_timeout : List (String × ℚ)) (command : String)
    (params : List (String × PyVal)) (outcome : RemoteOutcome) (elapsed : ℚ) :
    ExecTrace :=
  if connected then
    let timeout := getZenCommandTimeout command_timeout command
    let params1 :=
      if (alookup params "model").isNone then
        params ++ [("model", PyVal.str (getDefaultModel command))]
      else params
    match sendRequestResult ("zen__" ++ command) outcome with
    | Except.ok v =>
        let r : ZenCommandResult :=
          { command := command, success := true, result := v,
            execution_time := elapsed }
        { ret := Except.ok r, history := history ++ [r], params := params1,
          sentRequest := true }
    | Except.error ExecErr.timeoutError =>
        let r : ZenCommandResult :=
          { command := command, success := false, result := PyVal.none,
            error := some ("Command " ++ command ++ " timed out after "
                            ++ toString timeout ++ "s"),
            execution_time := elapsed }
        { ret := Except.ok r, history := history ++ [r], params := params1,
          sentRequest := true }
    | Except.error (ExecErr.mcp _ msg) =>
        let r : ZenCommandResult :=
          { command := command, success := false, result := PyVal.none,
            error := some ("MCP error in " ++ command ++ ": " ++ msg),
            execution_time := elapsed }
        { ret := Except.ok r, history := history ++ [r], params := params1,
          sentRequest := true }
    | Except.error (ExecErr.exn msg) =>
        let r : ZenCommandResult :=
          { command := command, success := false, result := PyVal.none,
            error := some ("Unexpected error in " ++ command ++ ": " ++ msg),
            execution_time := elapsed }
        { ret := Except.ok r, history := history ++ [r], params := params1,
          sentRequest := true }
  else
    { ret := Except.error "Not connected to zen-MCP server",
      history := history, params := params, sentRequest := false }

/-! ## Connection establishment: MCPClient.connect and ZenMCPAdapter.connect -/

/-- Observable state of an MCPConnection object: the _closed flag and
whether the background _read_loop task is (still) running. -/
structure ConnState where
  closed : Bool
  readTaskRunning : Bool
deriving DecidableEq, Repr

/-- Outcome of the two awaited steps inside MCPClient.connect, made
explicit: opening the transport can raise, and the initialize handshake
request can raise (timeout, error response, ...); otherwise both
succeed. -/
inductive ConnectPhase where
  | transportFail (message : String)
  | handshakeFail (message : String)
  | ok
deriving DecidableEq, Repr

/-- Result of MCPClient.connect (src/core/mcp_protocol.py lines 208-224):
what the coroutine returns or raises, and the final state of the
MCPConnection object it created (if the transport opened at all).
After open_connection succeeds the connection is constructed and
started (closed = false, read task running); the code then awaits the
initialize request with no try/except around it, so a handshake failure
propagates the exception while the connection object keeps running. -/
structure ClientConnectResult where
  ret : Except String ConnState
  conn : Option ConnState
deriving DecidableEq, Repr

/-- Model of MCPClient.connect. -/
def clientConnect (phase : ConnectPhase) : ClientConnectResult :=
  match phase with
  | ConnectPhase.transportFail msg =>
      { ret := Except.error msg, conn := Option.none }
  | ConnectPhase.handshakeFail msg =>
      { ret := Except.error msg,
        conn := some { closed := false, readTaskRunning := true } }
  | ConnectPhase.ok =>
      { ret := Except.ok { closed := false, readTaskRunning := true },
        conn := some { closed := false, readTaskRunning := true } }

/-- Result of ZenMCPAdapter.connect: the boolean it returns and the
adapter's _connected flag afterwards, together with the state of the
underlying MCPConnection (if one was created). -/
structure AdapterConnectResult where
  ret : Bool
  connected : Bool
  conn : Option ConnState
deriving DecidableEq, Repr

/-- Model of ZenMCPAdapter.connect (src/adapters/zen_mcp_adapter.py
lines 49-60): any exception from MCPClient.connect is caught, logged
and turned into a False return with _connected = False. -/
def adapterConnect (phase : ConnectPhase) : AdapterConnectResult :=
  let c := clientConnect phase
  match c.ret with
  | Except.ok _ => { ret := true, connected := true, conn := c.conn }
  | Except.error _ => { ret := false, connected := false, conn := c.conn }

/-! ## Command statistics: ZenMCPAdapter.get_command_stats -/

/-- Per-command statistics record, the value type of the stats dict
built by get_command_stats. -/
structure CmdStats where
  total_executions : Nat
  successful : Nat
  failed : Nat
  total_time : ℚ
  avg_time : ℚ
deriving DecidableEq, Repr

/-- Fresh all-zero statistics record, as initialized when a command is
first seen in the history (lines 257-264). -/
def zeroStats : CmdStats :=
  { total_executions := 0, successful := 0, failed := 0,
    total_time := 0, avg_time := 0 }

/-- One iteration of the loop body of get_command_stats (lines 266-275)
applied to the current record of the result's command. -/
def statsUpdate (s : CmdStats) (r : ZenCommandResult) : CmdStats :=
  let total := s.total_executions + 1
  let total_time := s.total_time + r.execution_time
  { total_executions := total,
    successful := if r.success then s.successful + 1 else s.successful,
    failed := if r.success then s.failed else s.failed + 1,
    total_time := total_time,
    avg_time := total_time / (total : ℚ) }

/-- In-place update of an existing key of an association list, the model
of `stats[command] = ...` when the key is already present. -/
def aset {β : Type} : List (String × β) → String → β → List (String × β)
  | [], _, _ => []
  | (k, v) :: rest, key, w =>
      if k = key then (key, w) :: rest else (k, v) :: aset rest key w

/-- Model of ZenMCPAdapter.get_command_stats (lines 252-277): fold over
the command history, creating a zero record the first time a command is
seen and updating it (including the recomputed avg_time) for every
entry. -/
def getCommandStats (history : List ZenCommandResult) :
    List (String × CmdStats) :=
  history.foldl
    (fun stats r =>
      match alookup stats r.command with
      | some s => aset stats r.command (statsUpdate s r)
      | Option.none => stats ++ [(r.command, statsUpdate zeroStats r)])
    []

/-! ## Event-to-command configuration: src/core/config.py -/

/-- Configuration entry for one event type: its condition dict and its
ordered command list. -/
structure EventMapping where
  conditions : List (String × PyVal)
  commands : List String
deriving DecidableEq, Repr

/-- Default event mappings from EventMappingConfig.__post_init__
(src/core/config.py lines 75-92), used when no config file is present. -/
def defaultEventMappings : List (String × EventMapping) :=
  [("file_created",
    { conditions := [("extensions", PyVal.strList [".py", ".js", ".ts"])],
      commands := ["analyze", "docgen"] }),
   ("error_detected",
    { conditions := [("severity", PyVal.strList ["error", "critical"])],
      commands := ["debug", "tracer"] }),
   ("code_changed",
    { conditions := [("min_lines", PyVal.int 10)],
      commands := ["codereview", "refactor"] }),
   ("test_failed",
    { conditions := [], commands := ["testgen", "debug"] })]

/-- Model of Config.get_event_commands (lines 118-121): commands of the
mapping for the event type, empty when unmapped. -/
def getEventCommands (mappings : List (String × EventMapping))
    (event_type : String) : List String :=
  ((alookup mappings event_type).map EventMapping.commands).getD []

/-- Model of Config.get_event_conditions (lines 123-126). -/
def getEventConditions (mappings : List (String × EventMapping))
    (event_type : String) : List (String × PyVal) :=
  ((alookup mappings event_type).map EventMapping.conditions).getD []

/-! ## Event dispatcher: src/events/event_handler.py -/

/-- Result dataclass EventProcessingResult. -/
structure EventProcessingResult where
  event : MISEvent
  triggered_commands : List String
  command_results : List ZenCommandResult
  success : Bool
  processing_time : ℚ
  error : Option String := Option.none
deriving DecidableEq, Repr

/-- Collaborators and injected behaviour of one EventHandler, gathered
in one record:
* filters: the registered filter callbacks (post-processors are invoked
  on the result but return nothing, so they do not appear in the state
  evolution);
* pre_processors: the registered pre-processor callbacks; each is an
  arbitrary Python callable, so it either returns a replacement event or
  raises (Except.error with str(e)), and a raise is caught by
  _process_single_event's outer except;
* mappings: the event-mapping table behind config.get_event_commands /
  get_event_conditions;
* prepareParams: stands for EventHandler._prepare_command_params, whose
  synthesized values no claim depends on — every theorem below holds for
  an arbitrary synthesis function (it runs inside the per-command try,
  so a raise there is observationally an exec error);
* exec: stands for one call to ZenMCPAdapter.execute_command, returning
  either the ZenCommandResult it produced or (as Except.error) the
  message of the exception it raised;
* setEnum: the iteration order CPython happens to use when the dedup
  set is converted with list(...) during trimming.  Python guarantees
  only that it enumerates each element exactly once, so theorems
  constrain it to permutations of the insertion-ordered list and nothing
  more. -/
structure DispatcherCtx where
  filters : List (MISEvent → Bool)
  pre_processors : List (MISEvent → Except String MISEvent)
  mappings : List (String × EventMapping)
  prepareParams : String → MISEvent → List (String × PyVal)
  exec : String → List (String × PyVal) → Except String ZenCommandResult
  setEnum : List String → List String

/-- Model of the pre-processor loop `for processor in self.pre_processors:
event = processor(event)`: returns the event after the processors that
ran, plus the message of the first raised exception if one raised (the
`event` variable then still holds the value before the raising call,
which is what the outer except hands to the failure result). -/
def applyPre : List (MISEvent → Except String MISEvent) → MISEvent →
    MISEvent × Option String
  | [], e => (e, Option.none)
  | p :: rest, e =>
      match p e with
      | Except.ok e2 => applyPre rest e2
      | Except.error msg => (e, some msg)

/-- Model of EventHandler._process_single_event (src/events/event_handler.py
lines 126-194), outer except included.  Runs the pre-processors, looks
up commands and conditions for the (transformed) event's type, and
evaluates matches_conditions with condHoldsE; if a pre-processor or the
condition evaluation raises, the outer except (lines 183-194) returns an
EventProcessingResult with success = False, empty command lists and
error = str(e).  A clean non-match returns the vacuous success result.
Otherwise the commands run in order, a raised per-command exception
becoming a failed ZenCommandResult with execution_time 0 so the
remaining commands still run, and overall success is all(r.success).
The elapsed processing time is an explicit parameter.  Besides the
result, the list of (command, params) invocations of the adapter is
returned, so that theorems can speak about whether the adapter was
called.  (The remaining statements inside the outer try — the config
lookups and the result construction — are total and cannot raise.) -/
def processSingleEvent (ctx : DispatcherCtx) (elapsed : ℚ) (event0 : MISEvent) :
    EventProcessingResult × List (String × List (String × PyVal)) :=
  match applyPre ctx.pre_processors event0 with
  | (event, some msg) =>
      ({ event := event, triggered_commands := [], command_results := [],
         success := false, processing_time := elapsed, error := some msg },
       [])
  | (event, Option.none) =>
      let commands := getEventCommands ctx.mappings event.event_type
      let conditions := getEventConditions ctx.mappings event.event_type
      match matchesConditionsE event conditions with
      | Except.error msg =>
          ({ event := event, triggered_commands := [], command_results := [],
             success := false, processing_time := elapsed, error := some msg },
           [])
      | Except.ok false =>
          ({ event := event, triggered_commands := [], command_results := [],
             success := true, processing_time := elapsed },
           [])
      | Except.ok true =>
          let step := fun (acc : List ZenCommandResult × List (String × List (String × PyVal)))
                          (command : String) =>
            let params := ctx.prepareParams command event
            match ctx.exec command params with
            | Except.ok r => (acc.1 ++ [r], acc.2 ++ [(command, params)])
            | Except.error msg =>
                (acc.1 ++ [{ command := command, success := false,
                             result := PyVal.none, error := some msg }],
                 acc.2 ++ [(command, params)])
          let folded := commands.foldl step ([], [])
          ({ event := event, triggered_commands := commands,
             command_results := folded.1,
             success := folded.1.all (fun r => r.success),
             processing_time := elapsed },
           folded.2)

/-- Mutable state of an EventHandler that the claims depend on: the
asyncio queue's contents and the dedup set _processed_events.  The set
is modelled as its insertion-ordered list of distinct ids (a set plus
the history of insertions, which a claim about recency needs). -/
structure HandlerState where
  queue : List MISEvent
  processedEvents : List String
deriving DecidableEq, Repr

/-- Model of `self._processed_events.add(event_id)`: adding an element
already in the set is a no-op, a new element is recorded as most
recent. -/
def addProcessed (processed : List String) (event_id : String) : List String :=
  if processed.contains event_id then processed else processed ++ [event_id]

/-- Model of the dedup-set trim in _process_events (lines 113-117):
`if len(self._processed_events) > 1000:
   self._processed_events = set(list(self._processed_events)[-500:])`.
list(s) enumerates the set in whatever order CPython's hash table holds
it — setEnum — and [-500:] keeps the last 500 of that enumeration. -/
def trimProcessed (setEnum : List String → List String)
    (processed : List String) : List String :=
  if processed.length > 1000 then
    let l := setEnum processed
    l.drop (l.length - 500)
  else processed

/-- Model of EventHandler.handle_event (lines 73-88): drop silently when
the event id is already in the dedup set, drop silently when some filter
rejects the event, otherwise append it to the queue.  (The Python method
returns None on every path.) -/
def handleEvent (ctx : DispatcherCtx) (s : HandlerState) (event : MISEvent) :
    HandlerState :=
  if s.processedEvents.contains event.event_id then s
  else if ctx.filters.all (fun f => f event) then
    { s with queue := s.queue ++ [event] }
  else s

/-- Model of one iteration of the worker loop _process_events
(lines 92-124) once the queue wait has completed: an empty queue is the
asyncio.TimeoutError path (continue, no result); otherwise the head
event is processed unconditionally — note there is no second dedup check
here — marked processed, and the dedup set is trimmed.  Returns the new
state and the EventProcessingResult produced, if any.  (Post-processors
receive the result but cannot change the state; their exceptions are
caught.) -/
def workerStep (ctx : DispatcherCtx) (elapsed : ℚ) (s : HandlerState) :
    HandlerState × Option EventProcessingResult :=
  match s.queue with
  | [] => (s, Option.none)
  | event :: rest =>
      let r := (processSingleEvent ctx elapsed event).1
      let processed1 := addProcessed s.processedEvents event.event_id
      let processed2 := trimProcessed ctx.setEnum processed1
      ({ queue := rest, processedEvents := processed2 }, some r)

/-! ## Concrete fixtures used by witnesses and counterexamples -/

/-- Adapter stub that returns a successful result for every command. -/
def okExec : String → List (String × PyVal) → Except String ZenCommandResult :=
  fun command _ =>
    Except.ok { command := command, success := true, result := PyVal.none }

/-- Dispatcher with no filters, no pre-processors and no configured
event mappings (every event type triggers zero commands). -/
def dupCtx : DispatcherCtx :=
  { filters := [], pre_processors := [], mappings := [],
    prepareParams := fun _ _ => [], exec := okExec, setEnum := id }

/-- Dispatcher with the repository's default event mappings. -/
def defaultCtx : DispatcherCtx :=
  { filters := [], pre_processors := [], mappings := defaultEventMappings,
    prepareParams := fun _ _ => [], exec := okExec, setEnum := id }

/-- An event submitted twice in the C3 scenario. -/
def dupEvent : MISEvent :=
  { event_id := "evt-dup", event_type := "heartbeat", data := [] }

/-- A code_changed event with fewer changed lines than the default
min_lines condition requires. -/
def lowChangeEvent : MISEvent :=
  { event_id := "evt-low", event_type := "code_changed",
    data := [("file_path", PyVal.str "m.py"), ("lines_changed", PyVal.int 5)] }

/-- A code_changed event whose lines_changed is the string "five":
under the default min_lines condition Python evaluates 'five' < 10 and
raises TypeError. -/
def badLinesEvent : MISEvent :=
  { event_id := "evt-bad", event_type := "code_changed",
    data := [("lines_changed", PyVal.str "five")] }

/-- Dispatcher whose single registered pre-processor raises. -/
def raisingPreCtx : DispatcherCtx :=
  { dupCtx with pre_processors := [fun _ => Except.error "boom"] }

/-- Handler state at startup: empty queue, empty dedup set. -/
def emptyHandlerState : HandlerState :=
  { queue := [], processedEvents := [] }

/-- Dedup-set content with 1001 distinct ids "0", "1", ..., "1000" in
insertion order ("0" the oldest, "1000" the most recent). -/
def manyIds : List String :=
  (List.range 1001).map (fun n => toString n)

/-- Command history of the statistics example: chat executed three
times, two successes and one failure, taking 1s, 2s and 3s. -/
def chatHistory3 : List ZenCommandResult :=
  [{ command := "chat", success := true, result := PyVal.none, execution_time := 1 },
   { command := "chat", success := true, result := PyVal.none, execution_time := 2 },
   { command := "chat", success := false, result := PyVal.none,
     error := some "boom", execution_time := 3 }]

/-! ## Helper lemmas -/

theorem alookup_append_of_none {β : Type} {l : List (String × β)}
    {key : String} (h : alookup l key = Option.none) (l' : List (String × β)) :
    alookup (l ++ l') key = alookup l' key := by
  induction l with
  | nil => simp
  | cons kv rest ih =>
      obtain ⟨k, v⟩ := kv
      by_cases hk : k = key
      · simp [alookup, hk] at h
      · simp only [alookup, hk, if_false, List.cons_append] at h ⊢
        simpa [alookup, hk] using ih h

theorem alookup_append_of_some {β : Type} {l : List (String × β)}
    {key : String} {w : β} (h : alookup l key = some w) (l' : List (String × β)) :
    alookup (l ++ l') key = some w := by
  induction l with
  | nil => simp [alookup] at h
  | cons kv rest ih =>
      obtain ⟨k, v⟩ := kv
      by_cases hk : k = key
      · simp only [alookup, hk, if_true] at h ⊢
        simpa [alookup, hk] using h
      · simp only [alookup, hk, if_false, List.cons_append] at h ⊢
        simpa [alookup, hk] using ih h

theorem alookup_singleton_ne {β : Type} {k key : String} (h : k ≠ key) (v : β) :
    alookup [(k, v)] key = Option.none := by
  simp [alookup, h]

theorem alookup_aset_self {β : Type} {l : List (String × β)} {key : String}
    {s : β} (h : alookup l key = some s) (w : β) :
    alookup (aset l key w) key = some w := by
  induction l with
  | nil => simp [alookup] at h
  | cons kv rest ih =>
      obtain ⟨k, v⟩ := kv
      by_cases hk : k = key
      · simp [aset, alookup, hk]
      · simp only [alookup, hk, if_false] at h
        simp [aset, alookup, hk, ih h]

theorem alookup_aset_ne {β : Type} (l : List (String × β)) {key key' : String}
    (h : key' ≠ key) (w : β) :
    alookup (aset l key w) key' = alookup l key' := by
  induction l with
  | nil => simp [aset]
  | cons kv rest ih =>
      obtain ⟨k, v⟩ := kv
      by_cases hk : k = key
      · subst hk
        simp [aset, alookup, Ne.symm h]
      · simp [aset, alookup, hk, ih]

/-- Option-level step of the stats fold: what one history entry does to
the (possibly absent) record of its command. -/
def statsStep (o : Option CmdStats) (r : ZenCommandResult) : Option CmdStats :=
  some (statsUpdate (o.getD zeroStats) r)

theorem foldl_statsStep_some (l : List ZenCommandResult) :
    ∀ s : CmdStats, l.foldl statsStep (some s) = some (l.foldl statsUpdate s) := by
  induction l with
  | nil => intro s; rfl
  | cons r t ih => intro s; simpa [statsStep] using ih (statsUpdate s r)

theorem getCommandStats_step_lookup (r : ZenCommandResult)
    (acc : List (String × CmdStats)) (c : String) :
    alookup
      (match alookup acc r.command with
       | some s => aset acc r.command (statsUpdate s r)
       | Option.none => acc ++ [(r.command, statsUpdate zeroStats r)]) c
      = if r.command = c then statsStep (alookup acc c) r else alookup acc c := by
  by_cases hc : r.command = c
  · subst hc
    cases h : alookup acc r.command with
    | none =>
        simp only [h, if_true]
        rw [alookup_append_of_none h]
        simp [alookup, statsStep, h]
    | some s =>
        simp only [h, if_true]
        rw [alookup_aset_self h]
        simp [statsStep, h]
  · cases h : alookup acc r.command with
    | none =>
        simp only [h, hc, if_false]
        cases h' : alookup acc c with
        | none => rw [alookup_append_of_none h', alookup_singleton_ne hc]
        | some w => rw [alookup_append_of_some h']
    | some s =>
        simp only [h, hc, if_false]
        exact alookup_aset_ne acc (fun hcc => hc hcc.symm) _

theorem getCommandStats_foldl_lookup (history : List ZenCommandResult) :
    ∀ (acc : List (String × CmdStats)) (c : String),
      alookup
        (history.foldl
          (fun stats r =>
            match alookup stats r.command with
            | some s => aset stats r.command (statsUpdate s r)
            | Option.none => stats ++ [(r.command, statsUpdate zeroStats r)])
          acc) c
        = (history.filter (fun r => r.command = c)).foldl statsStep (alookup acc c) := by
  induction history with
  | nil => intro acc c; rfl
  | cons r t ih =>
      intro acc c
      rw [List.foldl_cons, ih, getCommandStats_step_lookup]
      by_cases hc : r.command = c
      · simp [List.filter_cons, hc]
      · simp [List.filter_cons, hc]

theorem getCommandStats_lookup (history : List ZenCommandResult) (c : String) :
    alookup (getCommandStats history) c
      = match history.filter (fun r => r.command = c) with
        | [] => Option.none
        | r :: t => some ((r :: t).foldl statsUpdate zeroStats) := by
  rw [getCommandStats, getCommandStats_foldl_lookup history [] c]
  cases h : history.filter (fun r => r.command = c) with
  | nil => rfl
  | cons r t =>
      simp only [List.foldl_cons, statsStep, Option.getD]
      exact foldl_statsStep_some t (statsUpdate zeroStats r)

theorem foldl_statsUpdate_fields (l : List ZenCommandResult) :
    ∀ s : CmdStats,
      (l.foldl statsUpdate s).total_executions = s.total_executions + l.length
      ∧ (l.foldl statsUpdate s).successful
          = s.successful + (l.filter (fun r => r.success)).length
      ∧ (l.foldl statsUpdate s).failed
          = s.failed + (l.filter (fun r => !r.success)).length
      ∧ (l.foldl statsUpdate s).total_time
          = s.total_time + (l.map (fun r => r.execution_time)).sum := by
  induction l with
  | nil => intro s; simp
  | cons r t ih =>
      intro s
      obtain ⟨h1, h2, h3, h4⟩ := ih (statsUpdate s r)
      refine ⟨?_, ?_, ?_, ?_⟩
      · rw [List.foldl_cons, h1]; simp [statsUpdate]; omega
      · rw [List.foldl_cons, h2]
        cases hs : r.success <;>
          (simp [statsUpdate, List.filter_cons, hs]; try omega)
      · rw [List.foldl_cons, h3]
        cases hs : r.success <;>
          (simp [statsUpdate, List.filter_cons, hs]; try omega)
      · rw [List.foldl_cons, h4]
        simp [statsUpdate]
        ring

theorem foldl_statsUpdate_avg (l : List ZenCommandResult) :
    ∀ s : CmdStats, l ≠ [] →
      (l.foldl statsUpdate s).avg_time
        = (l.foldl statsUpdate s).total_time
            / ((l.foldl statsUpdate s).total_executions : ℚ) := by
  induction l with
  | nil => intro s h; exact absurd rfl h
  | cons r t ih =>
      intro s _
      cases t with
      | nil => simp [statsUpdate]
      | cons r2 t2 =>
          rw [List.foldl_cons]
          exact ih _ (by simp)

/-! ## Claim theorems -/

/-- C1: while connected, a remote-call timeout, a protocol error (MCPError)
and an unexpected exception inside execute_command each make the call
return (not raise) exactly one ZenCommandResult with success = false —
the timeout's error string naming the timeout (send_request converts the
timed-out wait into MCPError "Request timeout for method: ...", so it
reaches execute_command through the MCPError handler) — and append
exactly that one result to the command history. -/
theorem executeCommand_failure_paths
    (history : List ZenCommandResult) (command_timeout : List (String × ℚ))
    (command : String) (params : List (String × PyVal)) (elapsed : ℚ) :
    (∃ r, (executeCommand true history command_timeout command params
             RemoteOutcome.timeout elapsed).ret = Except.ok r
        ∧ r.success = false
        ∧ r.error = some ("MCP error in " ++ command ++ ": "
            ++ ("Request timeout for method: " ++ ("zen__" ++ command)))
        ∧ (executeCommand true history command_timeout command params
             RemoteOutcome.timeout elapsed).history = history ++ [r])
    ∧ (∀ (code : Int) (msg : String), ∃ r,
        (executeCommand true history command_timeout command params
           (RemoteOutcome.mcpError code msg) elapsed).ret = Except.ok r
        ∧ r.success = false
        ∧ r.error = some ("MCP error in " ++ command ++ ": " ++ msg)
        ∧ (executeCommand true history command_timeout command params
             (RemoteOutcome.mcpError code msg) elapsed).history = history ++ [r])
    ∧ (∀ msg : String, ∃ r,
        (executeCommand true history command_timeout command params
           (RemoteOutcome.exn msg) elapsed).ret = Except.ok r
        ∧ r.success = false
        ∧ r.error = some ("Unexpected error in " ++ command ++ ": " ++ msg)
        ∧ (executeCommand true history command_timeout command params
             (RemoteOutcome.exn msg) elapsed).history = history ++ [r]) := by
  refine ⟨⟨_, rfl, rfl, rfl, rfl⟩, fun code msg => ⟨_, rfl, rfl, rfl, rfl⟩,
    fun msg => ⟨_, rfl, rfl, rfl, rfl⟩⟩

/-- C5 counterexample: calling execute_command while not connected does
not produce a result object — it raises
RuntimeError("Not connected to zen-MCP server") out of the adapter
(modelled as Except.error), appending nothing to history, refuting the
claim that the failure surfaces as a success=false result and never as
an unhandled exception. -/
theorem executeCommand_not_connected_raises :
    (executeCommand false [] defaultCommandTimeouts "chat" []
        (RemoteOutcome.ok PyVal.none) 0).ret
      = Except.error "Not connected to zen-MCP server"
    ∧ (executeCommand false [] defaultCommandTimeouts "chat" []
        (RemoteOutcome.ok PyVal.none) 0).history = [] := ⟨rfl, rfl⟩

/-- C5 (amended): calling execute_command while not connected fails
immediately with no network call — no send_request invocation, no
history append, no params mutation — but by raising
RuntimeError("Not connected to zen-MCP server"), not by returning a
success=false result object. -/
theorem executeCommand_not_connected_spec
    (history : List ZenCommandResult) (command_timeout : List (String × ℚ))
    (command : String) (params : List (String × PyVal))
    (outcome : RemoteOutcome) (elapsed : ℚ) :
    executeCommand false history command_timeout command params outcome elapsed
      = { ret := Except.error "Not connected to zen-MCP server",
          history := history, params := params, sentRequest := false } := rfl

/-- C6 counterexample: when the initialize handshake fails after the
transport opens, the MCPConnection created by MCPClient.connect is NOT
transitioned to Closed — its _closed flag is still false and its read
task still runs (connect has no cleanup around the handshake await) —
refuting the claimed Closed transition. -/
theorem connect_handshake_failure_not_closed :
    (clientConnect (ConnectPhase.handshakeFail
        "MCP Error -32000: Request timeout for method: initialize")).conn
      = some { closed := false, readTaskRunning := true } := rfl

/-- C6 (amended): a handshake failure after the transport opens
propagates the error to the caller of MCPClient.connect, and
ZenMCPAdapter.connect turns it into a false return with the adapter left
not-connected; the connection, however, is not closed — the read task
keeps running and the stream stays open. -/
theorem connect_handshake_failure_spec (msg : String) :
    clientConnect (ConnectPhase.handshakeFail msg)
      = { ret := Except.error msg,
          conn := some { closed := false, readTaskRunning := true } }
    ∧ adapterConnect (ConnectPhase.handshakeFail msg)
      = { ret := false, connected := false,
          conn := some { closed := false, readTaskRunning := true } } := ⟨rfl, rfl⟩

/-- C10 counterexample: a call made while not connected raises before
touching params, so the caller's mapping is left without a 'model'
entry, refuting the claim for such calls. -/
theorem executeCommand_not_connected_no_model :
    alookup (executeCommand false [] defaultCommandTimeouts "analyze" []
        (RemoteOutcome.ok PyVal.none) 0).params "model" = Option.none := rfl

/-- C10 (amended): for every call made while connected whose params
mapping lacks a 'model' key, execute_command inserts the default model
for the command into the caller's own mapping (the Python code assigns
into the dict object it was handed, modelled by the params field of the
trace), on every outcome path; when 'model' is already present the
mapping is left unchanged. -/
theorem executeCommand_model_default
    (history : List ZenCommandResult) (command_timeout : List (String × ℚ))
    (command : String) (params : List (String × PyVal))
    (outcome : RemoteOutcome) (elapsed : ℚ) :
    (alookup params "model" = Option.none →
      (executeCommand true history command_timeout command params outcome elapsed).params
        = params ++ [("model", PyVal.str (getDefaultModel command))])
    ∧ (∀ v, alookup params "model" = some v →
      (executeCommand true history command_timeout command params outcome elapsed).params
        = params) := by
  constructor
  · intro h
    cases outcome <;> simp [executeCommand, sendRequestResult, h]
  · intro v h
    cases outcome <;> simp [executeCommand, sendRequestResult, h]

/-- C10 witness: with the chat command and an empty params dict the
default model is inserted; with a params dict already carrying a model
the dict is unchanged. -/
theorem executeCommand_model_default_witness :
    (executeCommand true [] defaultCommandTimeouts "chat" []
        (RemoteOutcome.ok PyVal.none) 0).params
      = [] ++ [("model", PyVal.str (getDefaultModel "chat"))]
    ∧ (executeCommand true [] defaultCommandTimeouts "chat"
        [("model", PyVal.str "o3-mini")] (RemoteOutcome.ok PyVal.none) 0).params
      = [("model", PyVal.str "o3-mini")] :=
  ⟨(executeCommand_model_default [] defaultCommandTimeouts "chat" []
      (RemoteOutcome.ok PyVal.none) 0).1 rfl,
   (executeCommand_model_default [] defaultCommandTimeouts "chat"
      [("model", PyVal.str "o3-mini")] (RemoteOutcome.ok PyVal.none) 0).2
     (PyVal.str "o3-mini") rfl⟩

/-- C2: once a request registered in pending_requests times out,
send_request pops its entry (leaving the other pending ids untouched)
and raises MCPError(-32000, "Request timeout for method: ..."); a
response frame for that already-removed id arriving afterwards — a frame
with that id and no method — is discarded by _handle_message without
resolving any pending request and without invoking any notification
handler. -/
theorem sendRequest_timeout_late_response_dropped
    (pending0 : List String) (reqId method : String)
    (handlers : List (String × Nat)) (m : MCPMessage)
    (hfresh : reqId ∉ pending0) (hne : reqId ≠ "")
    (hid : m.id = some reqId) (hm : m.method = Option.none) :
    (sendRequestTimeout (registerPending pending0 reqId) reqId method).1 = pending0
    ∧ (sendRequestTimeout (registerPending pending0 reqId) reqId method).2
        = { code := -32000, message := "Request timeout for method: " ++ method }
    ∧ handleMessage pending0 handlers m = (pending0, HandleAction.dropped) := by
  refine ⟨?_, rfl, ?_⟩
  · rw [sendRequestTimeout, registerPending]
    simp [List.erase_append_right _ hfresh]
  · rw [handleMessage]
    rw [if_neg, if_neg]
    · simp [strTruthy, hm]
    · simp [strTruthy, hid, hne, hfresh]

/-- C2 witness: a concrete run — register request id "42", time it out,
then let a late response frame for "42" arrive. -/
theorem sendRequest_timeout_late_response_dropped_witness :
    (sendRequestTimeout (registerPending [] "42") "42" "zen__chat").1 = []
    ∧ (sendRequestTimeout (registerPending [] "42") "42" "zen__chat").2
        = { code := -32000, message := "Request timeout for method: " ++ "zen__chat" }
    ∧ handleMessage [] [("progress", 1)]
        { id := some "42", result := some (PyVal.str "late") }
      = ([], HandleAction.dropped) :=
  sendRequest_timeout_late_response_dropped [] "42" "zen__chat" [("progress", 1)]
    { id := some "42", result := some (PyVal.str "late") }
    (by decide) (by decide) rfl rfl

/-- C3 counterexample: submitting the same event (id "evt-dup") twice
before the worker runs enqueues it twice — handle_event checks only the
processed-set, which is updated after processing, and the worker re-checks
nothing at dequeue — so two worker iterations each produce an
EventProcessingResult: two results for one event id, refuting "at most
one result regardless of whether the second submission happens before or
after the worker has processed the first". -/
theorem handleEvent_duplicate_before_processing_two_results :
    (workerStep dupCtx 0
        (handleEvent dupCtx (handleEvent dupCtx emptyHandlerState dupEvent) dupEvent)).2
      = some { event := dupEvent, triggered_commands := [], command_results := [],
               success := true, processing_time := 0 }
    ∧ (workerStep dupCtx 0
        (workerStep dupCtx 0
          (handleEvent dupCtx (handleEvent dupCtx emptyHandlerState dupEvent) dupEvent)).1).2
      = some { event := dupEvent, triggered_commands := [], command_results := [],
               success := true, processing_time := 0 } := ⟨rfl, rfl⟩

/-- C3 (amended): the dedup drop happens only at submission time against
ids the worker has already marked processed: submitting an event whose
id is in the processed set leaves the dispatcher state unchanged (the
duplicate is silently dropped, not an error), so a duplicate submitted
after the first was processed yields no further EventProcessingResult;
a duplicate submitted while the first is still queued is processed again
and yields its own result. -/
theorem handleEvent_dedup_after_processing (ctx : DispatcherCtx)
    (s : HandlerState) (e : MISEvent)
    (h : s.processedEvents.contains e.event_id = true) :
    handleEvent ctx s e = s := by
  unfold handleEvent
  rw [if_pos h]

/-- C3 witness: resubmitting "evt-dup" after it has been processed (its
id is in the dedup set) changes nothing, so the empty queue yields no
second result. -/
theorem handleEvent_dedup_after_processing_witness :
    handleEvent dupCtx { queue := [], processedEvents := ["evt-dup"] } dupEvent
      = { queue := [], processedEvents := ["evt-dup"] } :=
  handleEvent_dedup_after_processing dupCtx
    { queue := [], processedEvents := ["evt-dup"] } dupEvent (by decide)

set_option maxRecDepth 100000 in
/-- C4: the trim fires at the claimed threshold and cuts the set to the
claimed size, but which 500 ids survive depends on the set's arbitrary
iteration order, not on insertion recency: with ids "0".."1000" inserted
in that order and a reversed iteration order — a legal enumeration of a
Python set, which guarantees no order — the retained 500 include the
oldest id "0", which the 500-most-recent set (the claim's answer)
excludes. -/
theorem trimProcessed_not_most_recent :
    manyIds.reverse.Perm manyIds
    ∧ manyIds.length = 1001
    ∧ manyIds.head? = some "0"
    ∧ (trimProcessed List.reverse manyIds).length = 500
    ∧ (trimProcessed List.reverse manyIds).contains "0" = true
    ∧ (manyIds.drop 501).contains "0" = false :=
  ⟨List.reverse_perm manyIds, rfl, rfl, rfl, rfl, rfl⟩

/-- C7: matches_conditions on the empty dict is true; an extensions
condition holds iff the event's file_path (a string, "" when absent)
ends with one of the listed extensions; a min_lines condition holds iff
the event's lines_changed (0 when absent) is at least the threshold; a
key outside the three special keys that is absent from the event data
never rejects, while a present key must compare equal; and every
condition entry is combined by logical AND. -/
theorem matchesConditions_spec :
    (∀ e : MISEvent, e.matchesConditions [] = true)
    ∧ (∀ (e : MISEvent) (exts : List String) (fp : String),
        ((alookup e.data "file_path" = Option.none ∧ fp = "") ∨
          alookup e.data "file_path" = some (PyVal.str fp)) →
        e.matchesConditions [("extensions", PyVal.strList exts)]
          = exts.any fun ext => pyEndsWith fp ext)
    ∧ (∀ (e : MISEvent) (n lc : Int),
        ((alookup e.data "lines_changed" = Option.none ∧ lc = 0) ∨
          alookup e.data "lines_changed" = some (PyVal.int lc)) →
        e.matchesConditions [("min_lines", PyVal.int n)] = decide (n ≤ lc))
    ∧ (∀ (e : MISEvent) (key : String) (v : PyVal) (rest : List (String × PyVal)),
        key ≠ "extensions" → key ≠ "severity" → key ≠ "min_lines" →
        ((alookup e.data key = Option.none →
          e.matchesConditions ((key, v) :: rest) = e.matchesConditions rest)
        ∧ (∀ w, alookup e.data key = some w →
          e.matchesConditions ((key, v) :: rest)
            = (decide (w = v) && e.matchesConditions rest))))
    ∧ (∀ (e : MISEvent) (c : String × PyVal) (rest : List (String × PyVal)),
        e.matchesConditions (c :: rest)
          = (condHolds e.data c && e.matchesConditions rest)) := by
  refine ⟨fun e => rfl, ?_, ?_, ?_, fun e c rest => rfl⟩
  · intro e exts fp h
    rcases h with ⟨h1, rfl⟩ | h1 <;>
      simp [MISEvent.matchesConditions, condHolds, getStrD, h1]
  · intro e n lc h
    rcases h with ⟨h1, rfl⟩ | h1 <;>
      simp [MISEvent.matchesConditions, condHolds, h1]
  · intro e key v rest h1 h2 h3
    constructor
    · intro habs
      simp [MISEvent.matchesConditions, condHolds, h1, h2, h3, habs]
    · intro w hw
      simp [MISEvent.matchesConditions, condHolds, h1, h2, h3, hw]

/-- C7 witness: concrete instances — a .py file matches an extensions
condition listing ".py", a 5-line change fails min_lines 10, and the
unknown key "change_type" rejects only when present with a different
value. -/
theorem matchesConditions_spec_witness :
    (MISEvent.mk "w1" "file_created"
        [("file_path", PyVal.str "a.py")]).matchesConditions
        [("extensions", PyVal.strList [".py"])]
      = [".py"].any (fun ext => pyEndsWith "a.py" ext)
    ∧ (MISEvent.mk "w2" "code_changed"
        [("lines_changed", PyVal.int 5)]).matchesConditions
        [("min_lines", PyVal.int 10)]
      = decide ((10 : Int) ≤ 5)
    ∧ (MISEvent.mk "w3" "code_changed" []).matchesConditions
        [("change_type", PyVal.str "modification")]
      = (MISEvent.mk "w3" "code_changed" []).matchesConditions []
    ∧ (MISEvent.mk "w4" "code_changed"
        [("change_type", PyVal.str "rename")]).matchesConditions
        [("change_type", PyVal.str "modification")]
      = (decide (PyVal.str "rename" = PyVal.str "modification")
          && (MISEvent.mk "w4" "code_changed"
                [("change_type", PyVal.str "rename")]).matchesConditions []) :=
  ⟨matchesConditions_spec.2.1 (MISEvent.mk "w1" "file_created"
      [("file_path", PyVal.str "a.py")]) [".py"] "a.py" (Or.inr rfl),
   matchesConditions_spec.2.2.1 (MISEvent.mk "w2" "code_changed"
      [("lines_changed", PyVal.int 5)]) 10 5 (Or.inr rfl),
   ((matchesConditions_spec.2.2.2.1 (MISEvent.mk "w3" "code_changed" [])
      "change_type" (PyVal.str "modification") [] (by decide) (by decide)
      (by decide)).1 rfl),
   ((matchesConditions_spec.2.2.2.1 (MISEvent.mk "w4" "code_changed"
      [("change_type", PyVal.str "rename")])
      "change_type" (PyVal.str "modification") [] (by decide) (by decide)
      (by decide)).2 (PyVal.str "rename") rfl)⟩

/-- C8 counterexample: for the code_changed event whose lines_changed is
the string "five" under the default min_lines 10 condition, Python
evaluates 'five' < 10, raises TypeError, and the outer except of
_process_single_event returns success = False with the exception text —
while the AND over the (empty) per-command results is True.  This
refutes the claim's unconditional "overall success equals the
conjunction of all per-command successes" (and the event does not reach
the vacuous-success branch at all). -/
theorem processSingleEvent_typeerror_not_vacuous :
    (processSingleEvent defaultCtx 0 badLinesEvent).1.success = false
    ∧ (processSingleEvent defaultCtx 0 badLinesEvent).1.command_results.all
        (fun r => r.success) = true
    ∧ (processSingleEvent defaultCtx 0 badLinesEvent).1.error
        = some "'<' not supported between instances of 'str' and 'int'"
    ∧ (processSingleEvent defaultCtx 0 badLinesEvent).2 = [] :=
  ⟨rfl, rfl, rfl, rfl⟩

/-- C8 (amended): an event whose configured conditions evaluate without
exception to a non-match produces the vacuous result — no triggered
commands, no command results, overall success = true — with the adapter
never invoked; overall success equals the AND of the per-command
successes whenever pre-processing and condition evaluation complete
without an exception; and when condition evaluation or a pre-processor
raises, the outer except instead yields success = false with str(e) in
the error field, empty command lists, and no adapter invocation. -/
theorem processSingleEvent_spec (ctx : DispatcherCtx) (elapsed : ℚ) (e : MISEvent) :
    ((applyPre ctx.pre_processors e).2 = Option.none →
      matchesConditionsE (applyPre ctx.pre_processors e).1
          (getEventConditions ctx.mappings
            ((applyPre ctx.pre_processors e).1.event_type)) = Except.ok false →
      processSingleEvent ctx elapsed e
        = ({ event := (applyPre ctx.pre_processors e).1,
             triggered_commands := [], command_results := [],
             success := true, processing_time := elapsed }, []))
    ∧ (∀ b, (applyPre ctx.pre_processors e).2 = Option.none →
        matchesConditionsE (applyPre ctx.pre_processors e).1
            (getEventConditions ctx.mappings
              ((applyPre ctx.pre_processors e).1.event_type)) = Except.ok b →
        (processSingleEvent ctx elapsed e).1.success
          = (processSingleEvent ctx elapsed e).1.command_results.all
              (fun r => r.success))
    ∧ (∀ msg, (applyPre ctx.pre_processors e).2 = Option.none →
        matchesConditionsE (applyPre ctx.pre_processors e).1
            (getEventConditions ctx.mappings
              ((applyPre ctx.pre_processors e).1.event_type)) = Except.error msg →
        processSingleEvent ctx elapsed e
          = ({ event := (applyPre ctx.pre_processors e).1,
               triggered_commands := [], command_results := [],
               success := false, processing_time := elapsed,
               error := some msg }, []))
    ∧ (∀ msg, (applyPre ctx.pre_processors e).2 = some msg →
        processSingleEvent ctx elapsed e
          = ({ event := (applyPre ctx.pre_processors e).1,
               triggered_commands := [], command_results := [],
               success := false, processing_time := elapsed,
               error := some msg }, [])) := by
  rcases hpre : applyPre ctx.pre_processors e with ⟨ev, m⟩
  refine ⟨?_, ?_, ?_, ?_⟩
  · intro h1 h2
    simp only at h1 h2
    subst h1
    simp [processSingleEvent, hpre, h2]
  · intro b h1 h2
    simp only at h1 h2
    subst h1
    cases b
    · simp [processSingleEvent, hpre, h2]
    · simp [processSingleEvent, hpre, h2]
  · intro msg h1 h2
    simp only at h1 h2
    subst h1
    simp [processSingleEvent, hpre, h2]
  · intro msg h1
    simp only at h1
    subst h1
    simp [processSingleEvent, hpre]

/-- C8 witness: under the repository's default mappings, the claim's
example — code_changed with lines_changed = 5 against min_lines = 10 —
cleanly fails to match, triggering zero commands with a vacuous success
and no adapter call, and its success equals the AND over its (empty)
command results; a raising pre-processor yields the failure result with
its message. -/
theorem processSingleEvent_spec_witness :
    processSingleEvent defaultCtx 0 lowChangeEvent
      = ({ event := lowChangeEvent, triggered_commands := [],
           command_results := [], success := true, processing_time := 0 }, [])
    ∧ (processSingleEvent defaultCtx 0 lowChangeEvent).1.success
        = (processSingleEvent defaultCtx 0 lowChangeEvent).1.command_results.all
            (fun r => r.success)
    ∧ processSingleEvent raisingPreCtx 0 dupEvent
      = ({ event := dupEvent, triggered_commands := [],
           command_results := [], success := false, processing_time := 0,
           error := some "boom" }, []) :=
  ⟨(processSingleEvent_spec defaultCtx 0 lowChangeEvent).1 rfl (by decide),
   (processSingleEvent_spec defaultCtx 0 lowChangeEvent).2.1 false rfl (by decide),
   (processSingleEvent_spec raisingPreCtx 0 dupEvent).2.2.2 "boom" rfl⟩

theorem length_filter_bool_add (p : ZenCommandResult → Bool)
    (l : List ZenCommandResult) :
    (l.filter p).length + (l.filter (fun r => !p r)).length = l.length := by
  induction l with
  | nil => simp
  | cons r t ih =>
      cases hp : p r <;> (simp [List.filter_cons, hp]; omega)

/-- C9: get_command_stats computes, for every command with at least one
history entry, a record whose total_executions is the number of that
command's entries, whose successful and failed fields count its
successes and failures (so successful + failed = total_executions),
whose total_time is the sum of its execution times, and whose avg_time
is total_time divided by total_executions. -/
theorem getCommandStats_spec (history : List ZenCommandResult) (c : String)
    (s : CmdStats) (h : alookup (getCommandStats history) c = some s) :
    s.total_executions = (history.filter (fun r => r.command = c)).length
    ∧ s.successful
        = ((history.filter (fun r => r.command = c)).filter
            (fun r => r.success)).length
    ∧ s.failed
        = ((history.filter (fun r => r.command = c)).filter
            (fun r => !r.success)).length
    ∧ s.successful + s.failed = s.total_executions
    ∧ s.total_time
        = ((history.filter (fun r => r.command = c)).map
            (fun r => r.execution_time)).sum
    ∧ s.avg_time = s.total_time / (s.total_executions : ℚ) := by
  have hl := getCommandStats_lookup history c
  rw [h] at hl
  cases hfil : history.filter (fun r => r.command = c) with
  | nil => rw [hfil] at hl; cases hl
  | cons r t =>
      rw [hfil] at hl
      have hs : s = (r :: t).foldl statsUpdate zeroStats := by
        exact Option.some.inj hl
      obtain ⟨h1, h2, h3, h4⟩ := foldl_statsUpdate_fields (r :: t) zeroStats
      have havg := foldl_statsUpdate_avg (r :: t) zeroStats (by simp)
      subst hs
      refine ⟨by simpa [zeroStats] using h1, by simpa [zeroStats] using h2,
        by simpa [zeroStats] using h3, ?_, by simpa [zeroStats] using h4, ?_⟩
      · rw [h2, h3, h1]
        simp only [zeroStats, Nat.zero_add]
        exact length_filter_bool_add (fun r => r.success) (r :: t)
      · rw [havg, h1]

theorem chatHistory3_lookup :
    alookup (getCommandStats chatHistory3) "chat"
      = some { total_executions := 3, successful := 2, failed := 1,
               total_time := 6, avg_time := 2 } := by
  rw [getCommandStats_lookup]
  have hfil : chatHistory3.filter (fun r => r.command = "chat") = chatHistory3 := rfl
  rw [hfil]
  show some (List.foldl statsUpdate zeroStats chatHistory3) = _
  refine congrArg some ?_
  norm_num [chatHistory3, statsUpdate, zeroStats, CmdStats.mk.injEq]

/-- C9 witness: the claim's example — chat executed three times, two
successes and one failure with durations 1s, 2s and 3s — reports
total_executions = 3, successful = 2, failed = 1 and avg_time = 2. -/
theorem getCommandStats_spec_witness :
    ({ total_executions := 3, successful := 2, failed := 1,
       total_time := 6, avg_time := 2 } : CmdStats).total_executions
        = (chatHistory3.filter (fun r => r.command = "chat")).length
    ∧ ({ total_executions := 3, successful := 2, failed := 1,
         total_time := 6, avg_time := 2 } : CmdStats).successful
        = ((chatHistory3.filter (fun r => r.command = "chat")).filter
            (fun r => r.success)).length
    ∧ ({ total_executions := 3, successful := 2, failed := 1,
         total_time := 6, avg_time := 2 } : CmdStats).failed
        = ((chatHistory3.filter (fun r => r.command = "chat")).filter
            (fun r => !r.success)).length
    ∧ ({ total_executions := 3, successful := 2, failed := 1,
         total_time := 6, avg_time := 2 } : CmdStats).successful
        + ({ total_executions := 3, successful := 2, failed := 1,
             total_time := 6, avg_time := 2 } : CmdStats).failed
        = ({ total_executions := 3, successful := 2, failed := 1,
             total_time := 6, avg_time := 2 } : CmdStats).total_executions
    ∧ ({ total_executions := 3, successful := 2, failed := 1,
         total_time := 6, avg_time := 2 } : CmdStats).total_time
        = ((chatHistory3.filter (fun r => r.command = "chat")).map
            (fun r => r.execution_time)).sum
    ∧ ({ total_executions := 3, successful := 2, failed := 1,
         total_time := 6, avg_time := 2 } : CmdStats).avg_time
        = ({ total_executions := 3, successful := 2, failed := 1,
             total_time := 6, avg_time := 2 } : CmdStats).total_time
          / (({ total_executions := 3, successful := 2, failed := 1,
                total_time := 6, avg_time := 2 } : CmdStats).total_executions : ℚ) :=
  getCommandStats_spec chatHistory3 "chat"
    { total_executions := 3, successful := 2, failed := 1,
      total_time := 6, avg_time := 2 } chatHistory3_lookup
